import Mathlib

/-!
Verification of the safeskill config-bootstrap utility (`safeskill/setup.py`).

The module has two operations:
  * `_find_bundled_config` probes an ordered list of candidate directories and
    returns the first that exists and contains the marker file
    `base-policy.yaml`;
  * `initialize_config` creates the target directory and its `environments`
    subdirectory, copies a fixed manifest of six files from the bundled source,
    logs structured events, and best-effort chmods the target to 0o750.

The embedding below models the filesystem as association lists (first match
wins), the environment override as an optional string, and the fallible OS
calls (`mkdir`, `shutil.copy2`, `os.chmod`) through an explicit fault model:
the Python code wraps only the `os.chmod` call in `try/except OSError`, so a
mkdir or copy failure propagates to the caller while a chmod failure is
swallowed.  A run returns either an `OSError` or the final filesystem together
with the trace of effects and log events, in order.
-/

namespace Safeskill

/-- A filesystem path, modelled as its list of segments from the root. -/
abbrev FsPath := List String

/-- Character-level split of a string on the path separator. -/
def splitSlash : List Char → List Char → List String
  | [], acc => [String.mk acc.reverse]
  | c :: rest, acc =>
      if c = '/' then String.mk acc.reverse :: splitSlash rest []
      else splitSlash rest (c :: acc)

/-- `pathlib.Path(s)`: the segments of a path string, empty segments dropped. -/
def strToPath (s : String) : FsPath :=
  (splitSlash s.data []).filter (fun seg => seg ≠ "")

/-- First-match lookup of a file's content in the file table. -/
def lookupFile : List (FsPath × String) → FsPath → Option String
  | [], _ => none
  | e :: rest, p => if e.1 = p then some e.2 else lookupFile rest p

/-- Membership test in a list of paths, as the model's directory probe. -/
def lookupDir : List FsPath → FsPath → Bool
  | [], _ => false
  | q :: rest, p => if q = p then true else lookupDir rest p

/-- First-match lookup of a path's permission bits. -/
def lookupPerm : List (FsPath × Nat) → FsPath → Option Nat
  | [], _ => none
  | e :: rest, p => if e.1 = p then some e.2 else lookupPerm rest p

/-- A filesystem snapshot: existing directories, files with their content, and
permission bits.  Lookup is first match, so updates prepend. -/
structure FS where
  dirs : List FsPath
  files : List (FsPath × String)
  perms : List (FsPath × Nat)
  deriving DecidableEq

/-- The content of the file at `p`, when `p` is a file. -/
def FS.fileContent (fs : FS) (p : FsPath) : Option String := lookupFile fs.files p

/-- `Path.exists()`: true when `p` is a directory or a file of the snapshot. -/
def FS.pathExists (fs : FS) (p : FsPath) : Bool :=
  lookupDir fs.dirs p || (lookupFile fs.files p).isSome

/-- Every prefix of a path, the path itself included. -/
def pathAncestors (p : FsPath) : List FsPath :=
  (List.range (p.length + 1)).map (fun k => p.take k)

/-- `Path.mkdir(parents=True, exist_ok=True)`: the directory and all its
ancestors exist afterwards. -/
def FS.mkdirP (fs : FS) (p : FsPath) : FS :=
  { fs with dirs := pathAncestors p ++ fs.dirs }

/-- `shutil.copy2(src, dst)`: afterwards `dst` is a file holding the content
read at `src`. -/
def FS.copyFile (fs : FS) (src dst : FsPath) : FS :=
  { fs with files := (dst, (lookupFile fs.files src).getD "") :: fs.files }

/-- `os.chmod(p, mode)`. -/
def FS.chmodSet (fs : FS) (p : FsPath) (mode : Nat) : FS :=
  { fs with perms := (p, mode) :: fs.perms }

/-- The permission bits recorded for `p`. -/
def FS.permOf (fs : FS) (p : FsPath) : Option Nat := lookupPerm fs.perms p

/-- The marker file that certifies a candidate directory as a bundled-config
root. -/
def markerFile : String := "base-policy.yaml"

/-- The fixed well-known installation path `/opt/safeskill/src/config`. -/
def optInstallPath : FsPath := ["opt", "safeskill", "src", "config"]

/-- `_find_bundled_config`: build the candidate list — source-checkout layout,
fixed install path, package-local path, with the `SAFESKILL_INSTALL_DIR`
override inserted at the front when the variable is set to a non-empty
string — and return the first candidate that exists and contains the marker
file.  `moduleDir` stands for `Path(__file__).parent`. -/
def find_bundled_config (envInstallDir : Option String) (moduleDir : FsPath) (fs : FS) :
    Option FsPath :=
  let candidates : List FsPath :=
    [moduleDir.dropLast ++ ["config"], optInstallPath, moduleDir ++ ["config"]]
  let candidates :=
    match envInstallDir with
    | some installDir =>
        if installDir ≠ "" then (strToPath installDir ++ ["config"]) :: candidates
        else candidates
    | none => candidates
  candidates.find? (fun c => fs.pathExists c && fs.pathExists (c ++ [markerFile]))

/-- The structured log events of `setup.py`, with their fields. -/
inductive LogEvent where
  | bundledConfigNotFound (searched : List FsPath) (hint : String)
  | bundledConfigFound (path : FsPath)
  | configFileInstalled (file : FsPath)
  | bundledFileMissing (file : String)
  | configInitialized (target : FsPath) (filesCopied : Nat)
  deriving DecidableEq

/-- One observable effect of a run: a directory creation, a log record, a file
copy, or a permission change, in program order. -/
inductive Action where
  | mkdir (p : FsPath)
  | log (e : LogEvent)
  | copy (src dst : FsPath)
  | chmod (p : FsPath) (mode : Nat)
  deriving DecidableEq

/-- The `OSError`s the embedding distinguishes: a failed `mkdir` and a failed
`shutil.copy2`.  (`os.chmod` failures are caught by the code itself.) -/
inductive OSError where
  | mkdirFailed (p : FsPath)
  | copyFailed (src : FsPath)
  deriving DecidableEq

/-- Which OS calls fail in a given run: the directories whose `mkdir` raises,
the source paths whose `copy2` raises, and whether the final `chmod` raises. -/
structure FaultModel where
  mkdirFail : List FsPath
  copyFail : List FsPath
  chmodFail : Bool
  deriving DecidableEq

/-- The fault-free run: every OS call succeeds. -/
def noFaults : FaultModel := ⟨[], [], false⟩

/-- One copy loop of `initialize_config`: for each name, if `srcDir/name`
exists copy it to `dstDir/name` and log `config_file_installed`; otherwise log
`bundled_file_missing` when `warnMissing` is set (top-level loop) and nothing
otherwise (environments loop).  Returns the new filesystem, the trace, and the
number of files copied. -/
def copyFiles (fm : FaultModel) (srcDir dstDir : FsPath) (warnMissing : Bool) :
    List String → FS → Except OSError (FS × List Action × Nat)
  | [], fs => .ok (fs, [], 0)
  | name :: rest, fs =>
      let src := srcDir ++ [name]
      let dst := dstDir ++ [name]
      if fs.pathExists src then
        if lookupDir fm.copyFail src then .error (.copyFailed src)
        else
          match copyFiles fm srcDir dstDir warnMissing rest (fs.copyFile src dst) with
          | .ok (fs2, tr, c) =>
              .ok (fs2, Action.copy src dst :: Action.log (.configFileInstalled dst) :: tr,
                c + 1)
          | .error e => .error e
      else
        match copyFiles fm srcDir dstDir warnMissing rest fs with
        | .ok (fs2, tr, c) =>
            .ok (fs2,
              (if warnMissing then [Action.log (.bundledFileMissing name)] else []) ++ tr, c)
        | .error e => .error e

/-- The three top-level manifest filenames. -/
def files_to_copy : List String := ["base-policy.yaml", "runtime-policy.yaml", "signatures.yaml"]

/-- The three per-environment filenames. -/
def env_files : List String := ["dev.yaml", "staging.yaml", "production.yaml"]

/-- `stat.S_IRWXU`. -/
def S_IRWXU : Nat := 0o700

/-- `stat.S_IRGRP`. -/
def S_IRGRP : Nat := 0o040

/-- `stat.S_IXGRP`. -/
def S_IXGRP : Nat := 0o010

/-- The mode passed to `os.chmod` on the target directory. -/
def targetMode : Nat := S_IRWXU ||| S_IRGRP ||| S_IXGRP

/-- The `searched` field of the `bundled_config_not_found` log record: the
code lists the source-checkout candidate and the fixed install path only. -/
def searchedReport (moduleDir : FsPath) : List FsPath :=
  [moduleDir.dropLast ++ ["config"], optInstallPath]

/-- The `hint` field of the `bundled_config_not_found` log record. -/
def notFoundHint : String := "Set SAFESKILL_INSTALL_DIR to the project root"

/-- `initialize_config(config_dir)`: create the target directory and its
`environments` subdirectory (failures propagate), locate the bundled config
(logging `bundled_config_not_found` and returning normally when there is
none), copy the three top-level and three environment files, log the summary,
then best-effort chmod the target. -/
def initialize_config (envInstallDir : Option String) (moduleDir : FsPath) (fm : FaultModel)
    (config_dir : String) (fs0 : FS) : Except OSError (FS × List Action) :=
  let target := strToPath config_dir
  if lookupDir fm.mkdirFail target then .error (.mkdirFailed target) else
  let fs1 := fs0.mkdirP target
  let environments_dir := target ++ ["environments"]
  if lookupDir fm.mkdirFail environments_dir then .error (.mkdirFailed environments_dir) else
  let fs2 := fs1.mkdirP environments_dir
  let pre : List Action := [Action.mkdir target, Action.mkdir environments_dir]
  match find_bundled_config envInstallDir moduleDir fs2 with
  | none =>
      .ok (fs2,
        pre ++ [Action.log (.bundledConfigNotFound (searchedReport moduleDir) notFoundHint)])
  | some bundled =>
      match copyFiles fm bundled target true files_to_copy fs2 with
      | .error e => .error e
      | .ok (fs3, tr1, c1) =>
          match copyFiles fm (bundled ++ ["environments"]) environments_dir false env_files fs3 with
          | .error e => .error e
          | .ok (fs4, tr2, c2) =>
              let copied := c1 + c2
              let trace := pre ++ [Action.log (.bundledConfigFound bundled)] ++ tr1 ++ tr2 ++
                [Action.log (.configInitialized target copied)]
              if fm.chmodFail then .ok (fs4, trace)
              else .ok (fs4.chmodSet target targetMode, trace ++ [Action.chmod target targetMode])

/-- Recognizer for `Action.copy`. -/
def isCopyAct : Action → Bool
  | .copy _ _ => true
  | _ => false

/-- Recognizer for `config_file_installed` log records. -/
def isInstalledLog : Action → Bool
  | .log (.configFileInstalled _) => true
  | _ => false

/-- Recognizer for `bundled_file_missing` log records. -/
def isMissingLog : Action → Bool
  | .log (.bundledFileMissing _) => true
  | _ => false

/-- Recognizer for `bundled_config_not_found` log records. -/
def isNotFoundLog : Action → Bool
  | .log (.bundledConfigNotFound _ _) => true
  | _ => false

/-- The candidate probe order exactly as the specification words it: the
override (when the variable is set to a non-empty value) first, then the
parent-of-parent candidate, the fixed install path, and the module-local
candidate. -/
def specCandidateOrder (envInstallDir : Option String) (moduleDir : FsPath) : List FsPath :=
  (match envInstallDir with
   | some s => if s ≠ "" then [strToPath s ++ ["config"]] else []
   | none => []) ++
  [moduleDir.dropLast ++ ["config"], optInstallPath, moduleDir ++ ["config"]]

/-- A candidate is valid when it exists and contains the marker file. -/
def isValidCandidate (fs : FS) (c : FsPath) : Bool :=
  fs.pathExists c && fs.pathExists (c ++ [markerFile])

theorem isValidCandidate_fun (fs : FS) :
    isValidCandidate fs = fun c => fs.pathExists c && fs.pathExists (c ++ [markerFile]) := rfl

/-- The filesystem after `initialize_config` has created the target directory
and its `environments` subdirectory. -/
def prepDirs (config_dir : String) (fs0 : FS) : FS :=
  (fs0.mkdirP (strToPath config_dir)).mkdirP (strToPath config_dir ++ ["environments"])

section Lemmas

@[simp]
theorem lookupDir_nil (p : FsPath) : lookupDir [] p = false := rfl

@[simp]
theorem noFaults_mkdirFail : noFaults.mkdirFail = [] := rfl

@[simp]
theorem noFaults_copyFail : noFaults.copyFail = [] := rfl

@[simp]
theorem noFaults_chmodFail : noFaults.chmodFail = false := rfl

@[simp]
theorem fileContent_copyFile (fs : FS) (s d p : FsPath) :
    (fs.copyFile s d).fileContent p
      = if d = p then some ((fs.fileContent s).getD "") else fs.fileContent p := rfl

@[simp]
theorem fileContent_mkdirP (fs : FS) (q p : FsPath) :
    (fs.mkdirP q).fileContent p = fs.fileContent p := rfl

@[simp]
theorem fileContent_chmodSet (fs : FS) (q : FsPath) (m : Nat) (p : FsPath) :
    (fs.chmodSet q m).fileContent p = fs.fileContent p := rfl

@[simp]
theorem pathExists_copyFile (fs : FS) (s d p : FsPath) :
    (fs.copyFile s d).pathExists p = if d = p then true else fs.pathExists p := by
  by_cases h : d = p <;>
    simp [FS.pathExists, FS.copyFile, FS.fileContent, lookupFile, h]

@[simp]
theorem pathExists_chmodSet (fs : FS) (q : FsPath) (m : Nat) (p : FsPath) :
    (fs.chmodSet q m).pathExists p = fs.pathExists p := rfl

theorem lookupDir_append (l1 l2 : List FsPath) (p : FsPath) :
    lookupDir (l1 ++ l2) p = (lookupDir l1 p || lookupDir l2 p) := by
  induction l1 with
  | nil => simp
  | cons q rest ih => by_cases h : q = p <;> simp [lookupDir, h, ih]

theorem pathExists_mkdirP (fs : FS) (q p : FsPath) :
    (fs.mkdirP q).pathExists p = (lookupDir (pathAncestors q) p || fs.pathExists p) := by
  simp [FS.pathExists, FS.mkdirP, lookupDir_append, Bool.or_assoc]

theorem prepDirs_eq (config_dir : String) (fs0 : FS) :
    (fs0.mkdirP (strToPath config_dir)).mkdirP (strToPath config_dir ++ ["environments"])
      = prepDirs config_dir fs0 := rfl

theorem lookupDir_eq_true_iff (l : List FsPath) (p : FsPath) :
    lookupDir l p = true ↔ p ∈ l := by
  induction l with
  | nil => simp
  | cons q rest ih =>
      by_cases h : q = p
      · subst h; simp [lookupDir]
      · simp [lookupDir, h, ih, Ne.symm h]

@[simp]
theorem lookupDir_pathAncestors_self (q : FsPath) :
    lookupDir (pathAncestors q) q = true := by
  rw [lookupDir_eq_true_iff]
  refine List.mem_map.mpr ⟨q.length, ?_, List.take_length q⟩
  simp

theorem pathExists_prepDirs_target (config_dir : String) (fs0 : FS) :
    (prepDirs config_dir fs0).pathExists (strToPath config_dir) = true := by
  rw [prepDirs, pathExists_mkdirP, pathExists_mkdirP, lookupDir_pathAncestors_self]
  simp

theorem pathExists_prepDirs_environments (config_dir : String) (fs0 : FS) :
    (prepDirs config_dir fs0).pathExists (strToPath config_dir ++ ["environments"]) = true := by
  rw [prepDirs, pathExists_mkdirP, lookupDir_pathAncestors_self]
  simp

theorem append_singleton_inj {α : Type} (xs ys : List α) (a b : α) :
    xs ++ [a] = ys ++ [b] ↔ xs = ys ∧ a = b := by
  constructor
  · intro h
    have hl : xs.length = ys.length := by
      have := congrArg List.length h
      simpa using this
    obtain ⟨h1, h2⟩ := List.append_inj h hl
    exact ⟨h1, by simpa using h2⟩
  · rintro ⟨rfl, rfl⟩; rfl

theorem append_pair_eq (xs ys : List String) (n x m : String) :
    (xs ++ [n] = ys ++ [x, m]) ↔ (xs = ys ++ [x] ∧ n = m) := by
  rw [show ys ++ [x, m] = (ys ++ [x]) ++ [m] by simp, append_singleton_inj]

theorem pair_pair_eq (xs ys : List String) (x n y m : String) :
    (xs ++ [x, n] = ys ++ [y, m]) ↔ (xs ++ [x] = ys ++ [y] ∧ n = m) := by
  rw [show xs ++ [x, n] = (xs ++ [x]) ++ [n] by simp,
    show ys ++ [y, m] = (ys ++ [y]) ++ [m] by simp, append_singleton_inj]

theorem pair_singleton_eq (xs ys : List String) (x m n : String) :
    (xs ++ [x, m] = ys ++ [n]) ↔ (xs ++ [x] = ys ∧ m = n) := by
  rw [show xs ++ [x, m] = (xs ++ [x]) ++ [m] by simp, append_singleton_inj]

end Lemmas

/-- C10: an empty `SAFESKILL_INSTALL_DIR` behaves exactly as an unset one: the
override candidate is not prepended and discovery runs over the three built-in
candidates only. -/
theorem C10_empty_override_like_unset (moduleDir : FsPath) (fs : FS) :
    find_bundled_config (some "") moduleDir fs = find_bundled_config none moduleDir fs := by
  simp [find_bundled_config]

/-- C1: the locator probes the override candidate (when set and non-empty),
then the parent-of-parent candidate, the fixed install path, and the
module-local candidate, in that order, returning the first that exists and
contains the marker file; in particular a valid override wins over every other
candidate. -/
theorem C1_candidate_priority (envInstallDir : Option String) (moduleDir : FsPath) (fs : FS) :
    find_bundled_config envInstallDir moduleDir fs
      = (specCandidateOrder envInstallDir moduleDir).find? (isValidCandidate fs)
    ∧ (∀ s : String, envInstallDir = some s → s ≠ "" →
        isValidCandidate fs (strToPath s ++ ["config"]) = true →
        find_bundled_config envInstallDir moduleDir fs = some (strToPath s ++ ["config"])) := by
  constructor
  · cases envInstallDir with
    | none => rfl
    | some s =>
        by_cases h : s = "" <;>
          simp [find_bundled_config, specCandidateOrder, isValidCandidate_fun, h]
  · rintro s rfl hne hv
    rw [find_bundled_config]
    simp only [hne, ne_eq, not_false_eq_true, if_true, ite_true]
    exact List.find?_cons_of_pos _ (by simpa [isValidCandidate] using hv)

/-- C3: when no candidate path exists and contains the marker file, the run
still creates the target directory and its `environments` subdirectory, copies
zero files, logs `bundled_config_not_found` exactly once, and returns normally
(no exception). -/
theorem C3_not_found_graceful (envInstallDir : Option String) (moduleDir : FsPath)
    (config_dir : String) (fs0 : FS)
    (hnone : find_bundled_config envInstallDir moduleDir (prepDirs config_dir fs0) = none) :
    ∃ tr, initialize_config envInstallDir moduleDir noFaults config_dir fs0
        = .ok (prepDirs config_dir fs0, tr)
      ∧ tr.countP isCopyAct = 0
      ∧ tr.countP isNotFoundLog = 1
      ∧ (prepDirs config_dir fs0).pathExists (strToPath config_dir) = true
      ∧ (prepDirs config_dir fs0).pathExists (strToPath config_dir ++ ["environments"]) = true := by
  have hrun : initialize_config envInstallDir moduleDir noFaults config_dir fs0
      = .ok (prepDirs config_dir fs0,
          [Action.mkdir (strToPath config_dir),
           Action.mkdir (strToPath config_dir ++ ["environments"]),
           Action.log (.bundledConfigNotFound (searchedReport moduleDir) notFoundHint)]) := by
    simp [initialize_config, prepDirs_eq, hnone]
  exact ⟨_, hrun, by simp [isCopyAct], by simp [isNotFoundLog],
    pathExists_prepDirs_target _ _, pathExists_prepDirs_environments _ _⟩

/-- C2: with a bundled source containing all three top-level files and all
three environment files, `initialize_config` copies exactly six files (the
environment files under `target/environments`), logs six
`config_file_installed` events, no missing-file warning, and ends with the
`config_initialized` summary naming the target and the count 6, followed only
by the chmod. -/
theorem C2_six_files_copied (envInstallDir : Option String) (moduleDir : FsPath)
    (config_dir : String) (fs0 : FS) (b : FsPath)
    (hfind : find_bundled_config envInstallDir moduleDir (prepDirs config_dir fs0) = some b)
    (hTop : ∀ n ∈ files_to_copy, (prepDirs config_dir fs0).pathExists (b ++ [n]) = true)
    (hEnv : ∀ n ∈ env_files,
      (prepDirs config_dir fs0).pathExists (b ++ ["environments", n]) = true) :
    ∃ fs tr, initialize_config envInstallDir moduleDir noFaults config_dir fs0 = .ok (fs, tr)
      ∧ tr =
        [Action.mkdir (strToPath config_dir),
         Action.mkdir (strToPath config_dir ++ ["environments"]),
         Action.log (.bundledConfigFound b),
         Action.copy (b ++ ["base-policy.yaml"]) (strToPath config_dir ++ ["base-policy.yaml"]),
         Action.log (.configFileInstalled (strToPath config_dir ++ ["base-policy.yaml"])),
         Action.copy (b ++ ["runtime-policy.yaml"])
           (strToPath config_dir ++ ["runtime-policy.yaml"]),
         Action.log (.configFileInstalled (strToPath config_dir ++ ["runtime-policy.yaml"])),
         Action.copy (b ++ ["signatures.yaml"]) (strToPath config_dir ++ ["signatures.yaml"]),
         Action.log (.configFileInstalled (strToPath config_dir ++ ["signatures.yaml"])),
         Action.copy (b ++ ["environments", "dev.yaml"])
           (strToPath config_dir ++ ["environments", "dev.yaml"]),
         Action.log (.configFileInstalled (strToPath config_dir ++ ["environments", "dev.yaml"])),
         Action.copy (b ++ ["environments", "staging.yaml"])
           (strToPath config_dir ++ ["environments", "staging.yaml"]),
         Action.log
           (.configFileInstalled (strToPath config_dir ++ ["environments", "staging.yaml"])),
         Action.copy (b ++ ["environments", "production.yaml"])
           (strToPath config_dir ++ ["environments", "production.yaml"]),
         Action.log
           (.configFileInstalled (strToPath config_dir ++ ["environments", "production.yaml"])),
         Action.log (.configInitialized (strToPath config_dir) 6),
         Action.chmod (strToPath config_dir) targetMode]
      ∧ tr.countP isInstalledLog = 6
      ∧ tr.countP isCopyAct = 6
      ∧ tr.countP isMissingLog = 0 := by
  have h1 := hTop "base-policy.yaml" (by simp [files_to_copy])
  have h2 := hTop "runtime-policy.yaml" (by simp [files_to_copy])
  have h3 := hTop "signatures.yaml" (by simp [files_to_copy])
  have h4 := hEnv "dev.yaml" (by simp [env_files])
  have h5 := hEnv "staging.yaml" (by simp [env_files])
  have h6 := hEnv "production.yaml" (by simp [env_files])
  have hrun : initialize_config envInstallDir moduleDir noFaults config_dir fs0
      = .ok ((((((((prepDirs config_dir fs0).copyFile
              (b ++ ["base-policy.yaml"]) (strToPath config_dir ++ ["base-policy.yaml"])).copyFile
              (b ++ ["runtime-policy.yaml"])
              (strToPath config_dir ++ ["runtime-policy.yaml"])).copyFile
              (b ++ ["signatures.yaml"]) (strToPath config_dir ++ ["signatures.yaml"])).copyFile
              (b ++ ["environments", "dev.yaml"])
              (strToPath config_dir ++ ["environments", "dev.yaml"])).copyFile
              (b ++ ["environments", "staging.yaml"])
              (strToPath config_dir ++ ["environments", "staging.yaml"])).copyFile
              (b ++ ["environments", "production.yaml"])
              (strToPath config_dir ++ ["environments", "production.yaml"])).chmodSet
              (strToPath config_dir) targetMode,
          [Action.mkdir (strToPath config_dir),
           Action.mkdir (strToPath config_dir ++ ["environments"]),
           Action.log (.bundledConfigFound b),
           Action.copy (b ++ ["base-policy.yaml"])
             (strToPath config_dir ++ ["base-policy.yaml"]),
           Action.log (.configFileInstalled (strToPath config_dir ++ ["base-policy.yaml"])),
           Action.copy (b ++ ["runtime-policy.yaml"])
             (strToPath config_dir ++ ["runtime-policy.yaml"]),
           Action.log (.configFileInstalled (strToPath config_dir ++ ["runtime-policy.yaml"])),
           Action.copy (b ++ ["signatures.yaml"]) (strToPath config_dir ++ ["signatures.yaml"]),
           Action.log (.configFileInstalled (strToPath config_dir ++ ["signatures.yaml"])),
           Action.copy (b ++ ["environments", "dev.yaml"])
             (strToPath config_dir ++ ["environments", "dev.yaml"]),
           Action.log
             (.configFileInstalled (strToPath config_dir ++ ["environments", "dev.yaml"])),
           Action.copy (b ++ ["environments", "staging.yaml"])
             (strToPath config_dir ++ ["environments", "staging.yaml"]),
           Action.log
             (.configFileInstalled (strToPath config_dir ++ ["environments", "staging.yaml"])),
           Action.copy (b ++ ["environments", "production.yaml"])
             (strToPath config_dir ++ ["environments", "production.yaml"]),
           Action.log
             (.configFileInstalled (strToPath config_dir ++ ["environments", "production.yaml"])),
           Action.log (.configInitialized (strToPath config_dir) 6),
           Action.chmod (strToPath config_dir) targetMode]) := by
    simp [initialize_config, prepDirs_eq, hfind, copyFiles, files_to_copy, env_files,
      h1, h2, h3, h4, h5, h6]
  exact ⟨_, _, hrun, rfl, by simp [isInstalledLog], by simp [isCopyAct], by simp [isMissingLog]⟩

/-- C5: when exactly one top-level manifest file is missing from the bundled
source, `initialize_config` copies five files, logs exactly one
`bundled_file_missing` warning naming that file, and still completes the run
with the summary count 5 — the missing file never aborts the operation. -/
theorem C5_missing_top_level_file (envInstallDir : Option String) (moduleDir : FsPath)
    (config_dir : String) (fs0 : FS) (b : FsPath) (m : String)
    (hfind : find_bundled_config envInstallDir moduleDir (prepDirs config_dir fs0) = some b)
    (hm : m ∈ files_to_copy)
    (hmiss : (prepDirs config_dir fs0).pathExists (b ++ [m]) = false)
    (hTop : ∀ n ∈ files_to_copy, n ≠ m →
      (prepDirs config_dir fs0).pathExists (b ++ [n]) = true)
    (hEnv : ∀ n ∈ env_files,
      (prepDirs config_dir fs0).pathExists (b ++ ["environments", n]) = true) :
    ∃ fs tr, initialize_config envInstallDir moduleDir noFaults config_dir fs0 = .ok (fs, tr)
      ∧ tr.countP isCopyAct = 5
      ∧ tr.countP isInstalledLog = 5
      ∧ tr.countP isMissingLog = 1
      ∧ Action.log (.bundledFileMissing m) ∈ tr
      ∧ Action.log (.configInitialized (strToPath config_dir) 5) ∈ tr := by
  have h4 := hEnv "dev.yaml" (by simp [env_files])
  have h5 := hEnv "staging.yaml" (by simp [env_files])
  have h6 := hEnv "production.yaml" (by simp [env_files])
  have hm3 : m = "base-policy.yaml" ∨ m = "runtime-policy.yaml" ∨ m = "signatures.yaml" := by
    simpa [files_to_copy] using hm
  rcases hm3 with rfl | rfl | rfl
  · have t2 := hTop "runtime-policy.yaml" (by simp [files_to_copy]) (by decide)
    have t3 := hTop "signatures.yaml" (by simp [files_to_copy]) (by decide)
    simp [initialize_config, prepDirs_eq, hfind, copyFiles, files_to_copy, env_files,
      append_singleton_inj, append_pair_eq, pair_pair_eq, hmiss, t2, t3, h4, h5, h6,
      isCopyAct, isInstalledLog, isMissingLog]
    exact ⟨_, _, ⟨rfl, rfl⟩, by simp [isCopyAct], by simp [isInstalledLog],
      by simp [isMissingLog], by simp, by simp⟩
  · have t1 := hTop "base-policy.yaml" (by simp [files_to_copy]) (by decide)
    have t3 := hTop "signatures.yaml" (by simp [files_to_copy]) (by decide)
    simp [initialize_config, prepDirs_eq, hfind, copyFiles, files_to_copy, env_files,
      append_singleton_inj, append_pair_eq, pair_pair_eq, hmiss, t1, t3, h4, h5, h6,
      isCopyAct, isInstalledLog, isMissingLog]
    exact ⟨_, _, ⟨rfl, rfl⟩, by simp [isCopyAct], by simp [isInstalledLog],
      by simp [isMissingLog], by simp, by simp⟩
  · have t1 := hTop "base-policy.yaml" (by simp [files_to_copy]) (by decide)
    have t2 := hTop "runtime-policy.yaml" (by simp [files_to_copy]) (by decide)
    simp [initialize_config, prepDirs_eq, hfind, copyFiles, files_to_copy, env_files,
      append_singleton_inj, append_pair_eq, pair_pair_eq, hmiss, t1, t2, h4, h5, h6,
      isCopyAct, isInstalledLog, isMissingLog]
    exact ⟨_, _, ⟨rfl, rfl⟩, by simp [isCopyAct], by simp [isInstalledLog],
      by simp [isMissingLog], by simp, by simp⟩

/-- C6: when exactly one environment file is missing from
`bundled/environments/`, `initialize_config` copies five files and emits no
missing-file warning at all — the skip is silent, unlike the top-level case. -/
theorem C6_missing_env_file_silent (envInstallDir : Option String) (moduleDir : FsPath)
    (config_dir : String) (fs0 : FS) (b : FsPath) (m : String)
    (hfind : find_bundled_config envInstallDir moduleDir (prepDirs config_dir fs0) = some b)
    (hm : m ∈ env_files)
    (hmiss : (prepDirs config_dir fs0).pathExists (b ++ ["environments", m]) = false)
    (hTop : ∀ n ∈ files_to_copy, (prepDirs config_dir fs0).pathExists (b ++ [n]) = true)
    (hEnv : ∀ n ∈ env_files, n ≠ m →
      (prepDirs config_dir fs0).pathExists (b ++ ["environments", n]) = true) :
    ∃ fs tr, initialize_config envInstallDir moduleDir noFaults config_dir fs0 = .ok (fs, tr)
      ∧ tr.countP isCopyAct = 5
      ∧ tr.countP isInstalledLog = 5
      ∧ tr.countP isMissingLog = 0
      ∧ Action.log (.configInitialized (strToPath config_dir) 5) ∈ tr := by
  have t1 := hTop "base-policy.yaml" (by simp [files_to_copy])
  have t2 := hTop "runtime-policy.yaml" (by simp [files_to_copy])
  have t3 := hTop "signatures.yaml" (by simp [files_to_copy])
  have hm3 : m = "dev.yaml" ∨ m = "staging.yaml" ∨ m = "production.yaml" := by
    simpa [env_files] using hm
  rcases hm3 with rfl | rfl | rfl
  · have e2 := hEnv "staging.yaml" (by simp [env_files]) (by decide)
    have e3 := hEnv "production.yaml" (by simp [env_files]) (by decide)
    simp [initialize_config, prepDirs_eq, hfind, copyFiles, files_to_copy, env_files,
      append_singleton_inj, append_pair_eq, pair_pair_eq, hmiss, t1, t2, t3, e2, e3,
      isCopyAct, isInstalledLog, isMissingLog]
    exact ⟨_, _, ⟨rfl, rfl⟩, by simp [isCopyAct], by simp [isInstalledLog],
      by simp [isMissingLog], by simp⟩
  · have e1 := hEnv "dev.yaml" (by simp [env_files]) (by decide)
    have e3 := hEnv "production.yaml" (by simp [env_files]) (by decide)
    simp [initialize_config, prepDirs_eq, hfind, copyFiles, files_to_copy, env_files,
      append_singleton_inj, append_pair_eq, pair_pair_eq, hmiss, t1, t2, t3, e1, e3,
      isCopyAct, isInstalledLog, isMissingLog]
    exact ⟨_, _, ⟨rfl, rfl⟩, by simp [isCopyAct], by simp [isInstalledLog],
      by simp [isMissingLog], by simp⟩
  · have e1 := hEnv "dev.yaml" (by simp [env_files]) (by decide)
    have e2 := hEnv "staging.yaml" (by simp [env_files]) (by decide)
    simp [initialize_config, prepDirs_eq, hfind, copyFiles, files_to_copy, env_files,
      append_singleton_inj, append_pair_eq, pair_pair_eq, hmiss, t1, t2, t3, e1, e2,
      isCopyAct, isInstalledLog, isMissingLog]
    exact ⟨_, _, ⟨rfl, rfl⟩, by simp [isCopyAct], by simp [isInstalledLog],
      by simp [isMissingLog], by simp⟩

theorem copyFiles_ok_of_no_copyFail (fm : FaultModel) (h : fm.copyFail = [])
    (srcDir dstDir : FsPath) (w : Bool) (ns : List String) (fs : FS) :
    ∃ out, copyFiles fm srcDir dstDir w ns fs = .ok out := by
  induction ns generalizing fs with
  | nil => exact ⟨_, rfl⟩
  | cons n rest ih =>
      cases hex : fs.pathExists (srcDir ++ [n]) with
      | true =>
          obtain ⟨⟨fs2, tr, c⟩, hih⟩ := ih (fs.copyFile (srcDir ++ [n]) (dstDir ++ [n]))
          exact ⟨(fs2, Action.copy (srcDir ++ [n]) (dstDir ++ [n]) ::
              Action.log (.configFileInstalled (dstDir ++ [n])) :: tr, c + 1),
            by simp [copyFiles, hex, h, hih]⟩
      | false =>
          obtain ⟨⟨fs2, tr, c⟩, hih⟩ := ih fs
          exact ⟨(fs2, (if w = true then [Action.log (.bundledFileMissing n)] else []) ++ tr, c),
            by simp [copyFiles, hex, h, hih]⟩

/-- Every action a copy loop emits is a copy, a `config_file_installed` log,
or a `bundled_file_missing` log. -/
theorem copyFiles_actions (fm : FaultModel) (srcDir dstDir : FsPath) (w : Bool) :
    ∀ (ns : List String) (fs fs2 : FS) (tr : List Action) (c : Nat),
      copyFiles fm srcDir dstDir w ns fs = .ok (fs2, tr, c) →
      ∀ a ∈ tr, (isCopyAct a || isInstalledLog a || isMissingLog a) = true := by
  intro ns
  induction ns with
  | nil =>
      intro fs fs2 tr c h a ha
      simp only [copyFiles, Except.ok.injEq, Prod.mk.injEq] at h
      obtain ⟨-, rfl, -⟩ := h
      simp at ha
  | cons n rest ih =>
      intro fs fs2 tr c h a ha
      simp only [copyFiles] at h
      split at h
      · split at h
        · exact absurd h (by simp)
        · split at h
          next fs3 tr3 c3 hrec =>
            simp only [Except.ok.injEq, Prod.mk.injEq] at h
            obtain ⟨-, rfl, -⟩ := h
            rcases List.mem_cons.mp ha with rfl | ha2
            · simp [isCopyAct]
            · rcases List.mem_cons.mp ha2 with rfl | ha3
              · simp [isInstalledLog]
              · exact ih _ _ _ _ hrec a ha3
          next e hrec => exact absurd h (by simp)
      · split at h
        next fs3 tr3 c3 hrec =>
          simp only [Except.ok.injEq, Prod.mk.injEq] at h
          obtain ⟨-, rfl, -⟩ := h
          rcases List.mem_append.mp ha with hl | hr
          · cases hw : w
            · rw [hw] at hl; simp at hl
            · rw [hw] at hl
              simp at hl
              rw [hl]
              simp [isMissingLog]
          · exact ih _ _ _ _ hrec a hr
        next e hrec => exact absurd h (by simp)

/-- C9: when a bundled source is found (and the chmod succeeds), the run ends
by setting the target directory's permission bits to exactly
`S_IRWXU ||| S_IRGRP ||| S_IXGRP = 0o750`, and that chmod is the very last
action — after every copy and after the `config_initialized` summary. -/
theorem C9_chmod_mode_and_order (envInstallDir : Option String) (moduleDir : FsPath)
    (config_dir : String) (fs0 : FS) (b : FsPath)
    (hfind : find_bundled_config envInstallDir moduleDir (prepDirs config_dir fs0) = some b) :
    ∃ fs tr₁ copied, initialize_config envInstallDir moduleDir noFaults config_dir fs0
        = .ok (fs, tr₁ ++ [Action.log (.configInitialized (strToPath config_dir) copied),
                           Action.chmod (strToPath config_dir) targetMode])
      ∧ fs.permOf (strToPath config_dir) = some targetMode
      ∧ targetMode = 0o750 := by
  obtain ⟨⟨fs3, tr1, c1⟩, h1⟩ := copyFiles_ok_of_no_copyFail noFaults rfl b
    (strToPath config_dir) true files_to_copy (prepDirs config_dir fs0)
  obtain ⟨⟨fs4, tr2, c2⟩, h2⟩ := copyFiles_ok_of_no_copyFail noFaults rfl
    (b ++ ["environments"]) (strToPath config_dir ++ ["environments"]) false env_files fs3
  refine ⟨fs4.chmodSet (strToPath config_dir) targetMode,
    [Action.mkdir (strToPath config_dir), Action.mkdir (strToPath config_dir ++ ["environments"]),
     Action.log (.bundledConfigFound b)] ++ tr1 ++ tr2, c1 + c2, ?_, ?_, by decide⟩
  · simp [initialize_config, prepDirs_eq, hfind, h1, h2]
  · simp [FS.permOf, FS.chmodSet, lookupPerm]

/-- A filesystem holding a valid bundle at the fixed install path only. -/
def fsOptBundle : FS :=
  ⟨[["opt", "safeskill", "src", "config"]],
   [(["opt", "safeskill", "src", "config", "base-policy.yaml"], "bp")], []⟩

/-- A fault model where copying the bundled `base-policy.yaml` raises. -/
def fmCopyBoom : FaultModel :=
  ⟨[], [["opt", "safeskill", "src", "config", "base-policy.yaml"]], false⟩

/-- C7 counterexample: with every `mkdir` succeeding (the mkdir fault set is
empty) but the copy of `base-policy.yaml` raising an `OSError`, the run
propagates the error — so `initialize_config` can raise even though creation
of the target directories did not fail, refuting the claimed "if and only
if". -/
theorem C7_counterexample :
    initialize_config none ["x", "safeskill"] fmCopyBoom "etc/safeskill" fsOptBundle
      = .error (.copyFailed ["opt", "safeskill", "src", "config", "base-policy.yaml"])
    ∧ fmCopyBoom.mkdirFail = [] := by
  exact ⟨rfl, rfl⟩

/-- C7 amended: `initialize_config` raises exactly on the fallible OS calls it
does not guard: a failed `mkdir` of the target or of its `environments`
subdirectory, and a failed `shutil.copy2`.  Every other anomaly — bundled
source not found, manifest files missing, the chmod failing — still yields a
normal return. -/
theorem C7_amended_error_policy (envInstallDir : Option String) (moduleDir : FsPath)
    (fm : FaultModel) (config_dir : String) (fs0 : FS) :
    (lookupDir fm.mkdirFail (strToPath config_dir) = true →
      initialize_config envInstallDir moduleDir fm config_dir fs0
        = .error (.mkdirFailed (strToPath config_dir)))
    ∧ (lookupDir fm.mkdirFail (strToPath config_dir) = false →
       lookupDir fm.mkdirFail (strToPath config_dir ++ ["environments"]) = true →
      initialize_config envInstallDir moduleDir fm config_dir fs0
        = .error (.mkdirFailed (strToPath config_dir ++ ["environments"])))
    ∧ (fm.copyFail = [] →
       lookupDir fm.mkdirFail (strToPath config_dir) = false →
       lookupDir fm.mkdirFail (strToPath config_dir ++ ["environments"]) = false →
      ∃ out, initialize_config envInstallDir moduleDir fm config_dir fs0 = .ok out) := by
  refine ⟨fun h1 => ?_, fun h1 h2 => ?_, fun hc h1 h2 => ?_⟩
  · simp [initialize_config, h1]
  · simp [initialize_config, h1, h2]
  · rcases hfind : find_bundled_config envInstallDir moduleDir (prepDirs config_dir fs0)
      with _ | bundled
    · exact ⟨(prepDirs config_dir fs0,
          [Action.mkdir (strToPath config_dir),
           Action.mkdir (strToPath config_dir ++ ["environments"]),
           Action.log (.bundledConfigNotFound (searchedReport moduleDir) notFoundHint)]),
        by simp [initialize_config, prepDirs_eq, h1, h2, hfind]⟩
    · obtain ⟨⟨fs3, tr1, c1⟩, hc1⟩ := copyFiles_ok_of_no_copyFail fm hc bundled
        (strToPath config_dir) true files_to_copy (prepDirs config_dir fs0)
      obtain ⟨⟨fs4, tr2, c2⟩, hc2⟩ := copyFiles_ok_of_no_copyFail fm hc
        (bundled ++ ["environments"]) (strToPath config_dir ++ ["environments"]) false
        env_files fs3
      cases hch : fm.chmodFail
      · exact ⟨(fs4.chmodSet (strToPath config_dir) targetMode,
            [Action.mkdir (strToPath config_dir),
             Action.mkdir (strToPath config_dir ++ ["environments"]),
             Action.log (.bundledConfigFound bundled)] ++ tr1 ++ tr2 ++
              [Action.log (.configInitialized (strToPath config_dir) (c1 + c2)),
               Action.chmod (strToPath config_dir) targetMode]),
          by simp [initialize_config, prepDirs_eq, h1, h2, hfind, hc1, hc2, hch]⟩
      · exact ⟨(fs4,
            [Action.mkdir (strToPath config_dir),
             Action.mkdir (strToPath config_dir ++ ["environments"]),
             Action.log (.bundledConfigFound bundled)] ++ tr1 ++ tr2 ++
              [Action.log (.configInitialized (strToPath config_dir) (c1 + c2))]),
          by simp [initialize_config, prepDirs_eq, h1, h2, hfind, hc1, hc2, hch]⟩

/-- The empty filesystem. -/
def fsEmpty : FS := ⟨[], [], []⟩

/-- C4 counterexample: with `SAFESKILL_INSTALL_DIR` set to `x` and no bundle
anywhere, the run logs `bundled_config_not_found` whose `searched` field holds
only the source-checkout candidate and the fixed install path — it omits both
the override candidate and the module-local candidate even though both were
probed, refuting the claim that the diagnostic names all probed candidates. -/
theorem C4_counterexample :
    (strToPath "x" ++ ["config"]) ∈ specCandidateOrder (some "x") ["repo", "safeskill"]
    ∧ (["repo", "safeskill"] ++ ["config"]) ∈ specCandidateOrder (some "x") ["repo", "safeskill"]
    ∧ ∃ fs tr, initialize_config (some "x") ["repo", "safeskill"] noFaults "etc/cfg" fsEmpty
        = .ok (fs, tr)
      ∧ Action.log (.bundledConfigNotFound (searchedReport ["repo", "safeskill"]) notFoundHint)
          ∈ tr
      ∧ (strToPath "x" ++ ["config"]) ∉ searchedReport ["repo", "safeskill"]
      ∧ (["repo", "safeskill"] ++ ["config"]) ∉ searchedReport ["repo", "safeskill"] := by
  refine ⟨by decide, by decide, ?_⟩
  exact ⟨_, _, rfl, by decide, by decide, by decide⟩

/-- C4 amended: whenever a run returns normally and its trace holds a
`bundled_config_not_found` record, that record's `searched` field is exactly
the two-path report — the source-checkout candidate and the fixed install
path, the override and module-local candidates omitted — and its hint is the
fixed remediation string naming `SAFESKILL_INSTALL_DIR`. -/
theorem C4_amended_diagnostic_fields (envInstallDir : Option String) (moduleDir : FsPath)
    (fm : FaultModel) (config_dir : String) (fs0 fs : FS) (tr : List Action)
    (searched : List FsPath) (hint : String)
    (hrun : initialize_config envInstallDir moduleDir fm config_dir fs0 = .ok (fs, tr))
    (hmem : Action.log (.bundledConfigNotFound searched hint) ∈ tr) :
    searched = searchedReport moduleDir ∧ hint = notFoundHint := by
  simp only [initialize_config] at hrun
  split at hrun
  · exact absurd hrun (by simp)
  · split at hrun
    · exact absurd hrun (by simp)
    · split at hrun
      · simp only [Except.ok.injEq, Prod.mk.injEq] at hrun
        obtain ⟨-, rfl⟩ := hrun
        simpa using hmem
      · rename_i bundled hfind
        split at hrun
        · exact absurd hrun (by simp)
        · rename_i fs3 tr1 c1 hc1
          split at hrun
          · exact absurd hrun (by simp)
          · rename_i fs4 tr2 c2 hc2
            have k1 := copyFiles_actions fm bundled (strToPath config_dir) true
              files_to_copy _ _ _ _ hc1
            have k2 := copyFiles_actions fm (bundled ++ ["environments"])
              (strToPath config_dir ++ ["environments"]) false env_files _ _ _ _ hc2
            split at hrun
            · simp only [Except.ok.injEq, Prod.mk.injEq] at hrun
              obtain ⟨-, rfl⟩ := hrun
              simp only [List.mem_append] at hmem
              rcases hmem with (((h | h) | h) | h) | h
              · simp at h
              · simp at h
              · have := k1 _ h
                simp [isCopyAct, isInstalledLog, isMissingLog] at this
              · have := k2 _ h
                simp [isCopyAct, isInstalledLog, isMissingLog] at this
              · simp at h
            · simp only [Except.ok.injEq, Prod.mk.injEq] at hrun
              obtain ⟨-, rfl⟩ := hrun
              simp only [List.mem_append] at hmem
              rcases hmem with ((((h | h) | h) | h) | h) | h
              · simp at h
              · simp at h
              · have := k1 _ h
                simp [isCopyAct, isInstalledLog, isMissingLog] at this
              · have := k2 _ h
                simp [isCopyAct, isInstalledLog, isMissingLog] at this
              · simp at h
              · simp at h

/-- The filesystem a fault-free full-bundle run of `initialize_config` leaves
behind: the prepared directories, the six copies, and the chmod. -/
def runOutFS (config_dir : String) (fs0 : FS) (b : FsPath) : FS :=
  ((((((((prepDirs config_dir fs0).copyFile
      (b ++ ["base-policy.yaml"]) (strToPath config_dir ++ ["base-policy.yaml"])).copyFile
      (b ++ ["runtime-policy.yaml"]) (strToPath config_dir ++ ["runtime-policy.yaml"])).copyFile
      (b ++ ["signatures.yaml"]) (strToPath config_dir ++ ["signatures.yaml"])).copyFile
      (b ++ ["environments", "dev.yaml"])
      (strToPath config_dir ++ ["environments", "dev.yaml"])).copyFile
      (b ++ ["environments", "staging.yaml"])
      (strToPath config_dir ++ ["environments", "staging.yaml"])).copyFile
      (b ++ ["environments", "production.yaml"])
      (strToPath config_dir ++ ["environments", "production.yaml"])).chmodSet
      (strToPath config_dir) targetMode)

/-- The trace of a fault-free full-bundle run of `initialize_config`. -/
def bundleTrace (config_dir : String) (b : FsPath) : List Action :=
  [Action.mkdir (strToPath config_dir),
   Action.mkdir (strToPath config_dir ++ ["environments"]),
   Action.log (.bundledConfigFound b),
   Action.copy (b ++ ["base-policy.yaml"]) (strToPath config_dir ++ ["base-policy.yaml"]),
   Action.log (.configFileInstalled (strToPath config_dir ++ ["base-policy.yaml"])),
   Action.copy (b ++ ["runtime-policy.yaml"]) (strToPath config_dir ++ ["runtime-policy.yaml"]),
   Action.log (.configFileInstalled (strToPath config_dir ++ ["runtime-policy.yaml"])),
   Action.copy (b ++ ["signatures.yaml"]) (strToPath config_dir ++ ["signatures.yaml"]),
   Action.log (.configFileInstalled (strToPath config_dir ++ ["signatures.yaml"])),
   Action.copy (b ++ ["environments", "dev.yaml"])
     (strToPath config_dir ++ ["environments", "dev.yaml"]),
   Action.log (.configFileInstalled (strToPath config_dir ++ ["environments", "dev.yaml"])),
   Action.copy (b ++ ["environments", "staging.yaml"])
     (strToPath config_dir ++ ["environments", "staging.yaml"]),
   Action.log (.configFileInstalled (strToPath config_dir ++ ["environments", "staging.yaml"])),
   Action.copy (b ++ ["environments", "production.yaml"])
     (strToPath config_dir ++ ["environments", "production.yaml"]),
   Action.log
     (.configFileInstalled (strToPath config_dir ++ ["environments", "production.yaml"])),
   Action.log (.configInitialized (strToPath config_dir) 6),
   Action.chmod (strToPath config_dir) targetMode]

theorem fileContent_prepDirs (config_dir : String) (fsx : FS) (p : FsPath) :
    (prepDirs config_dir fsx).fileContent p = fsx.fileContent p := rfl

theorem pathExists_prepDirs (config_dir : String) (fsx : FS) (p : FsPath) :
    (prepDirs config_dir fsx).pathExists p
      = (lookupDir (pathAncestors (strToPath config_dir ++ ["environments"])) p
        || (lookupDir (pathAncestors (strToPath config_dir)) p || fsx.pathExists p)) := by
  rw [prepDirs, pathExists_mkdirP, pathExists_mkdirP]

/-- C8: rerunning `initialize_config` on the same target with the same bundled
source (all six files present, the bundle not itself the target) succeeds and
leaves every path's existence and every file's content exactly as the first
run left them: the second run overwrites each file with identical content. -/
theorem C8_idempotent_rerun (envInstallDir : Option String) (moduleDir : FsPath)
    (config_dir : String) (fs0 : FS) (b : FsPath) (fs1 : FS) (tr1 : List Action)
    (hfind : find_bundled_config envInstallDir moduleDir (prepDirs config_dir fs0) = some b)
    (hTop : ∀ n ∈ files_to_copy, (prepDirs config_dir fs0).pathExists (b ++ [n]) = true)
    (hEnv : ∀ n ∈ env_files,
      (prepDirs config_dir fs0).pathExists (b ++ ["environments", n]) = true)
    (hne : b ≠ strToPath config_dir)
    (h1 : initialize_config envInstallDir moduleDir noFaults config_dir fs0 = .ok (fs1, tr1))
    (hfind2 : find_bundled_config envInstallDir moduleDir (prepDirs config_dir fs1) = some b) :
    ∃ fs2 tr2, initialize_config envInstallDir moduleDir noFaults config_dir fs1 = .ok (fs2, tr2)
      ∧ (∀ p, fs2.fileContent p = fs1.fileContent p)
      ∧ (∀ p, fs2.pathExists p = fs1.pathExists p) := by
  have hne2 : ¬ (strToPath config_dir = b) := fun h => hne h.symm
  have t1 := hTop "base-policy.yaml" (by simp [files_to_copy])
  have t2 := hTop "runtime-policy.yaml" (by simp [files_to_copy])
  have t3 := hTop "signatures.yaml" (by simp [files_to_copy])
  have t4 := hEnv "dev.yaml" (by simp [env_files])
  have t5 := hEnv "staging.yaml" (by simp [env_files])
  have t6 := hEnv "production.yaml" (by simp [env_files])
  have hrun1 : initialize_config envInstallDir moduleDir noFaults config_dir fs0
      = .ok (runOutFS config_dir fs0 b, bundleTrace config_dir b) := by
    simp [initialize_config, prepDirs_eq, hfind, copyFiles, files_to_copy, env_files,
      runOutFS, bundleTrace, t1, t2, t3, t4, t5, t6]
  rw [hrun1] at h1
  simp only [Except.ok.injEq, Prod.mk.injEq] at h1
  obtain ⟨h1a, -⟩ := h1
  subst h1a
  have K : ∀ q : FsPath, (prepDirs config_dir fs0).pathExists q = true →
      (prepDirs config_dir (runOutFS config_dir fs0 b)).pathExists q = true := by
    intro q hq
    rw [pathExists_prepDirs]
    have hx : (runOutFS config_dir fs0 b).pathExists q = true := by
      simp [runOutFS, hq]
    rw [hx]
    simp
  have hrun2 : initialize_config envInstallDir moduleDir noFaults config_dir
        (runOutFS config_dir fs0 b)
      = .ok ((((((((prepDirs config_dir (runOutFS config_dir fs0 b)).copyFile
            (b ++ ["base-policy.yaml"]) (strToPath config_dir ++ ["base-policy.yaml"])).copyFile
            (b ++ ["runtime-policy.yaml"])
            (strToPath config_dir ++ ["runtime-policy.yaml"])).copyFile
            (b ++ ["signatures.yaml"]) (strToPath config_dir ++ ["signatures.yaml"])).copyFile
            (b ++ ["environments", "dev.yaml"])
            (strToPath config_dir ++ ["environments", "dev.yaml"])).copyFile
            (b ++ ["environments", "staging.yaml"])
            (strToPath config_dir ++ ["environments", "staging.yaml"])).copyFile
            (b ++ ["environments", "production.yaml"])
            (strToPath config_dir ++ ["environments", "production.yaml"])).chmodSet
            (strToPath config_dir) targetMode,
          bundleTrace config_dir b) := by
    simp [initialize_config, prepDirs_eq, hfind2, copyFiles, files_to_copy, env_files,
      bundleTrace, K _ t1, K _ t2, K _ t3, K _ t4, K _ t5, K _ t6]
  refine ⟨_, _, hrun2, ?_, ?_⟩
  · intro p
    simp [runOutFS, hne2, append_singleton_inj, append_pair_eq, pair_pair_eq,
      pair_singleton_eq, fileContent_prepDirs]
    split_ifs <;> rfl
  · intro p
    cases hA : lookupDir (pathAncestors (strToPath config_dir ++ ["environments"])) p <;>
      cases hB : lookupDir (pathAncestors (strToPath config_dir)) p <;>
        simp [runOutFS, hne2, append_singleton_inj, append_pair_eq, pair_pair_eq,
          pair_singleton_eq, pathExists_prepDirs, hA, hB]
    by_cases k1 : strToPath config_dir ++ ["environments", "production.yaml"] = p <;>
      by_cases k2 : strToPath config_dir ++ ["environments", "staging.yaml"] = p <;>
        by_cases k3 : strToPath config_dir ++ ["environments", "dev.yaml"] = p <;>
          by_cases k4 : strToPath config_dir ++ ["signatures.yaml"] = p <;>
            by_cases k5 : strToPath config_dir ++ ["runtime-policy.yaml"] = p <;>
              by_cases k6 : strToPath config_dir ++ ["base-policy.yaml"] = p <;>
                simp [k1, k2, k3, k4, k5, k6]

/-- A filesystem holding a complete bundle (all six files) at the fixed
install path. -/
def wFsAll : FS :=
  ⟨[["opt", "safeskill", "src", "config"]],
   [(["opt", "safeskill", "src", "config", "base-policy.yaml"], "bp"),
    (["opt", "safeskill", "src", "config", "runtime-policy.yaml"], "rp"),
    (["opt", "safeskill", "src", "config", "signatures.yaml"], "sg"),
    (["opt", "safeskill", "src", "config", "environments", "dev.yaml"], "dv"),
    (["opt", "safeskill", "src", "config", "environments", "staging.yaml"], "st"),
    (["opt", "safeskill", "src", "config", "environments", "production.yaml"], "pr")], []⟩

/-- The complete bundle with `runtime-policy.yaml` removed. -/
def wFsNoRuntime : FS :=
  ⟨[["opt", "safeskill", "src", "config"]],
   [(["opt", "safeskill", "src", "config", "base-policy.yaml"], "bp"),
    (["opt", "safeskill", "src", "config", "signatures.yaml"], "sg"),
    (["opt", "safeskill", "src", "config", "environments", "dev.yaml"], "dv"),
    (["opt", "safeskill", "src", "config", "environments", "staging.yaml"], "st"),
    (["opt", "safeskill", "src", "config", "environments", "production.yaml"], "pr")], []⟩

/-- The complete bundle with `environments/dev.yaml` removed. -/
def wFsNoDev : FS :=
  ⟨[["opt", "safeskill", "src", "config"]],
   [(["opt", "safeskill", "src", "config", "base-policy.yaml"], "bp"),
    (["opt", "safeskill", "src", "config", "runtime-policy.yaml"], "rp"),
    (["opt", "safeskill", "src", "config", "signatures.yaml"], "sg"),
    (["opt", "safeskill", "src", "config", "environments", "staging.yaml"], "st"),
    (["opt", "safeskill", "src", "config", "environments", "production.yaml"], "pr")], []⟩

theorem C2_six_files_copied_witness :
    ∃ fs tr, initialize_config none ["repo", "safeskill"] noFaults "etc/ss" wFsAll = .ok (fs, tr)
      ∧ tr.countP isInstalledLog = 6
      ∧ tr.countP isCopyAct = 6
      ∧ tr.countP isMissingLog = 0 := by
  obtain ⟨fs, tr, hrun, -, hc1, hc2, hc3⟩ :=
    C2_six_files_copied none ["repo", "safeskill"] "etc/ss" wFsAll optInstallPath
      (by decide) (by decide) (by decide)
  exact ⟨fs, tr, hrun, hc1, hc2, hc3⟩

theorem C3_not_found_graceful_witness :
    ∃ tr, initialize_config none ["repo", "safeskill"] noFaults "etc/ss" fsEmpty
        = .ok (prepDirs "etc/ss" fsEmpty, tr)
      ∧ tr.countP isCopyAct = 0
      ∧ tr.countP isNotFoundLog = 1
      ∧ (prepDirs "etc/ss" fsEmpty).pathExists (strToPath "etc/ss") = true
      ∧ (prepDirs "etc/ss" fsEmpty).pathExists (strToPath "etc/ss" ++ ["environments"])
          = true :=
  C3_not_found_graceful none ["repo", "safeskill"] "etc/ss" fsEmpty (by decide)

theorem C5_missing_top_level_file_witness :
    ∃ fs tr, initialize_config none ["repo", "safeskill"] noFaults "etc/ss" wFsNoRuntime
        = .ok (fs, tr)
      ∧ tr.countP isCopyAct = 5
      ∧ tr.countP isInstalledLog = 5
      ∧ tr.countP isMissingLog = 1
      ∧ Action.log (.bundledFileMissing "runtime-policy.yaml") ∈ tr
      ∧ Action.log (.configInitialized (strToPath "etc/ss") 5) ∈ tr :=
  C5_missing_top_level_file none ["repo", "safeskill"] "etc/ss" wFsNoRuntime optInstallPath
    "runtime-policy.yaml" (by decide) (by decide) (by decide) (by decide) (by decide)

theorem C6_missing_env_file_silent_witness :
    ∃ fs tr, initialize_config none ["repo", "safeskill"] noFaults "etc/ss" wFsNoDev
        = .ok (fs, tr)
      ∧ tr.countP isCopyAct = 5
      ∧ tr.countP isInstalledLog = 5
      ∧ tr.countP isMissingLog = 0
      ∧ Action.log (.configInitialized (strToPath "etc/ss") 5) ∈ tr :=
  C6_missing_env_file_silent none ["repo", "safeskill"] "etc/ss" wFsNoDev optInstallPath
    "dev.yaml" (by decide) (by decide) (by decide) (by decide) (by decide)

theorem C9_chmod_mode_and_order_witness :
    ∃ fs tr₁ copied, initialize_config none ["repo", "safeskill"] noFaults "etc/ss" wFsAll
        = .ok (fs, tr₁ ++ [Action.log (.configInitialized (strToPath "etc/ss") copied),
                           Action.chmod (strToPath "etc/ss") targetMode])
      ∧ fs.permOf (strToPath "etc/ss") = some targetMode
      ∧ targetMode = 0o750 :=
  C9_chmod_mode_and_order none ["repo", "safeskill"] "etc/ss" wFsAll optInstallPath (by decide)

theorem C8_idempotent_rerun_witness :
    ∃ fs2 tr2, initialize_config none ["repo", "safeskill"] noFaults "etc/ss"
        (runOutFS "etc/ss" wFsAll optInstallPath) = .ok (fs2, tr2)
      ∧ (∀ p, fs2.fileContent p = (runOutFS "etc/ss" wFsAll optInstallPath).fileContent p)
      ∧ (∀ p, fs2.pathExists p = (runOutFS "etc/ss" wFsAll optInstallPath).pathExists p) :=
  C8_idempotent_rerun none ["repo", "safeskill"] "etc/ss" wFsAll optInstallPath
    (runOutFS "etc/ss" wFsAll optInstallPath) (bundleTrace "etc/ss" optInstallPath)
    (by decide) (by decide) (by decide) (by decide) rfl (by decide)

theorem C4_amended_diagnostic_fields_witness :
    [["repo", "config"], optInstallPath] = searchedReport ["repo", "safeskill"]
    ∧ "Set SAFESKILL_INSTALL_DIR to the project root" = notFoundHint :=
  C4_amended_diagnostic_fields (some "x") ["repo", "safeskill"] noFaults "etc/cfg" fsEmpty
    (prepDirs "etc/cfg" fsEmpty)
    [Action.mkdir (strToPath "etc/cfg"),
     Action.mkdir (strToPath "etc/cfg" ++ ["environments"]),
     Action.log (.bundledConfigNotFound (searchedReport ["repo", "safeskill"]) notFoundHint)]
    [["repo", "config"], optInstallPath]
    "Set SAFESKILL_INSTALL_DIR to the project root"
    rfl (by decide)

end Safeskill
